import Mathlib

/-!
Verification of the function-macro invocation bridge of the cmonster
repository, which contains two variants of the bridge:

* `src/cmonster/python/function_macro.cpp` — `cmonster::python::FunctionMacro`
  (clang-based preprocessor, full result classification, ambient
  `preprocessor`/`location` globals);
* `src/csnake/python/function_macro.cpp` — `csnake::python::FunctionMacro`
  (boost::wave-based predecessor, sequence-only result handling).

The embedding models the Python value universe crossed by the bridge as an
inductive `PyVal`; Python strings are lists of code points (CPython strings
may contain lone surrogates, which is exactly when `PyUnicode_AsUTF8String`
fails).  The external callable is a function from the marshaled argument
list to `Except String PyVal` (an error carries the Python diagnostic).
The preprocessor's lexer (`Preprocessor::tokenize`), an external
collaborator whose implementation is outside the bridge, is a function
parameter `tokenize : List Nat → List Token` taking the UTF-8 bytes.
-/

namespace CmonsterBridge

/-- A source position as carried by a token or by a `SourceLocation`
Python object (file/line/column). -/
structure SourcePos where
  file : String
  line : Nat
  column : Nat
deriving DecidableEq, Repr

/-- The preprocessor's internal token: a kind/category id, the literal
text, and the source position.  Both cores (clang token kinds and
boost::wave token ids) are modelled with a `Nat` kind. -/
structure Token where
  kind : Nat
  text : String
  pos : SourcePos
deriving DecidableEq, Repr

/-- boost::wave::T_STRINGLIT, the token id the csnake variant stamps on
its placeholder token for a string element (the concrete numeral is an
arbitrary stand-in for the boost id; no claim depends on its value). -/
def T_STRINGLIT : Nat := 26

/-- The placeholder token the csnake variant pushes for a string element
of a result sequence: `token_type(T_STRINGLIT, "TODO", position_type("?"))`
(boost::wave positions default to line 1, column 1). -/
def todoToken : Token :=
  { kind := T_STRINGLIT, text := "TODO", pos := { file := "?", line := 1, column := 1 } }

/-- The Python values that cross the bridge boundary.  A Python string is
a list of code points.  `tokenObj` is the boxed-token extension type
(`cmonster::python::Token` / `csnake::python::Token`): it wraps a copy of
a core token together with an optional borrowed preprocessor reference
(present for the cmonster variant's `create_token(preprocessor, token)`,
absent for the csnake variant's `create_token(token)`).  `ppObj` and
`locObj` are the Preprocessor and SourceLocation extension objects that
the cmonster variant publishes into the globals. -/
inductive PyVal where
  | none
  | str (codepoints : List Nat)
  | int (n : Int)
  | tokenObj (ppref : Option Nat) (t : Token)
  | seq (elems : List PyVal)
  | ppObj (pp : Nat)
  | locObj (loc : SourcePos)

/-- `v == Py_None`. -/
def isNone : PyVal → Bool
  | PyVal.none => true
  | _ => false

/-- `PyUnicode_Check`. -/
def pyUnicodeCheck : PyVal → Bool
  | PyVal.str _ => true
  | _ => false

/-- `PySequence_Check`: true for genuine sequences and also for strings
(CPython strings implement the sequence protocol); false for `None`,
integers and the extension objects. -/
def pySequenceCheck : PyVal → Bool
  | PyVal.seq _ => true
  | PyVal.str _ => true
  | _ => false

/-- The items yielded by `PySequence_GetItem` over the whole sequence:
the elements of a sequence, or the one-character strings of a string. -/
def pySequenceItems : PyVal → List PyVal
  | PyVal.seq l => l
  | PyVal.str cs => cs.map (fun c => PyVal.str [c])
  | _ => []

/-- The code points of a string value. -/
def strCodepoints : PyVal → List Nat
  | PyVal.str cs => cs
  | _ => []

/-- `PyObject_TypeCheck(v, get_token_type())`. -/
def isTokenObj : PyVal → Bool
  | PyVal.tokenObj _ _ => true
  | _ => false

/-- `get_token`: the core token wrapped by a boxed token (junk token on a
non-token value; only consulted under `isTokenObj`). -/
def theToken : PyVal → Token
  | PyVal.tokenObj _ t => t
  | _ => { kind := 0, text := "", pos := { file := "", line := 0, column := 0 } }

/-- A code point `PyUnicode_AsUTF8String` can encode: a Unicode scalar
value (below 0x110000 and not a lone surrogate). -/
def validScalar (c : Nat) : Bool :=
  decide (c < 0x110000) && !(decide (0xD800 ≤ c) && decide (c ≤ 0xDFFF))

/-- Standard UTF-8 encoding of one scalar value. -/
def utf8EncodeChar (c : Nat) : List Nat :=
  if c < 0x80 then [c]
  else if c < 0x800 then [0xC0 + c / 0x40, 0x80 + c % 0x40]
  else if c < 0x10000 then
    [0xE0 + c / 0x1000, 0x80 + (c / 0x40) % 0x40, 0x80 + c % 0x40]
  else
    [0xF0 + c / 0x40000, 0x80 + (c / 0x1000) % 0x40,
     0x80 + (c / 0x40) % 0x40, 0x80 + c % 0x40]

/-- `PyUnicode_AsUTF8String`: the UTF-8 bytes of a string of code points,
or failure when some code point is not encodable. -/
def utf8Encode (cs : List Nat) : Option (List Nat) :=
  if cs.all validScalar then some (cs.map utf8EncodeChar).flatten else Option.none

/-- The errors an invocation can fail with (§7 of the spec's taxonomy,
each constructor mapped from a throw site of the source). -/
inductive MacroError where
  | externalCallFailure (diag : String)
  | encodingError
  | typeMismatch (msg : String)
deriving DecidableEq, Repr

instance exceptDecEq {ε α : Type} [DecidableEq ε] [DecidableEq α] :
    DecidableEq (Except ε α) := fun x y =>
  match x, y with
  | Except.ok a, Except.ok b =>
    if h : a = b then isTrue (by rw [h])
    else isFalse (fun hh => h (Except.ok.inj hh))
  | Except.error a, Except.error b =>
    if h : a = b then isTrue (by rw [h])
    else isFalse (fun hh => h (Except.error.inj hh))
  | Except.ok _, Except.error _ => isFalse (fun hh => Except.noConfusion hh)
  | Except.error _, Except.ok _ => isFalse (fun hh => Except.noConfusion hh)

/-- cmonster variant, `create_token(m_preprocessor, arguments[i])`: box a
copy of the token with a borrowed preprocessor reference. -/
def create_token (pp : Nat) (t : Token) : PyVal :=
  PyVal.tokenObj (some pp) t

/-- csnake variant, `create_token(arguments[i])`: box a copy of the token
(no preprocessor reference). -/
def csCreate_token (t : Token) : PyVal :=
  PyVal.tokenObj Option.none t

/-- cmonster argument marshaling: the arguments tuple, built in order. -/
def marshalArgs (pp : Nat) (args : List Token) : List PyVal :=
  args.map (create_token pp)

/-- csnake argument marshaling: the arguments tuple, built in order. -/
def csMarshalArgs (args : List Token) : List PyVal :=
  args.map csCreate_token

/-- The process-wide globals dictionary (when a Python frame is
executing): an association list with `PyDict_SetItem` replacement. -/
def Dict := List (String × PyVal)

/-- `PyDict_SetItem`: replace the binding of `k`, or append it. -/
def dictSet : Dict → String → PyVal → Dict
  | [], k, v => [(k, v)]
  | (k', v') :: rest, k, v =>
    if k' = k then (k, v) :: rest else (k', v') :: dictSet rest k v

/-- `PyDict_GetItem`. -/
def dictGet : Dict → String → Option PyVal
  | [], _ => Option.none
  | (k', v') :: rest, k => if k' = k then some v' else dictGet rest k

/-- cmonster context binding (lines 82–105): if `PyEval_GetGlobals`
returned a dictionary, overwrite its `preprocessor` and `location`
entries; if it returned NULL, do nothing. -/
def bindContext (pp : Nat) (loc : SourcePos) : Option Dict → Option Dict
  | Option.none => Option.none
  | some d =>
    some (dictSet (dictSet d "preprocessor" (PyVal.ppObj pp)) "location" (PyVal.locObj loc))

/-- cmonster decoding loop over the elements of a result sequence
(lines 157–171): each element must be a boxed token and its wrapped token
is appended; the first element of any other type aborts with a
`TypeError`. -/
def cmDecodeSeq : List PyVal → Except MacroError (List Token)
  | [] => Except.ok []
  | v :: rest =>
    match v with
    | PyVal.tokenObj _ t =>
      match cmDecodeSeq rest with
      | Except.ok ts => Except.ok (t :: ts)
      | Except.error e => Except.error e
    | _ => Except.error (MacroError.typeMismatch "macro functions must return a sequence of tokens")

/-- csnake decoding loop over the elements of a result sequence
(lines 76–99): a string element becomes the `todoToken` placeholder
("TODO tokenise string"), a boxed token is unwrapped and appended, and
any other element aborts with "Invalid return value". -/
def csDecodeSeq : List PyVal → Except MacroError (List Token)
  | [] => Except.ok []
  | v :: rest =>
    match v with
    | PyVal.str _ =>
      match csDecodeSeq rest with
      | Except.ok ts => Except.ok (todoToken :: ts)
      | Except.error e => Except.error e
    | PyVal.tokenObj _ t =>
      match csDecodeSeq rest with
      | Except.ok ts => Except.ok (t :: ts)
      | Except.error e => Except.error e
    | _ => Except.error (MacroError.typeMismatch "Invalid return value")

/-- cmonster result classification (lines 112–173): `Py_None` → empty
list; a string → UTF-8 encode (failure → the propagated encoding error)
and hand the bytes to `Preprocessor::tokenize`; otherwise it must pass
`PySequence_Check` and every element is decoded; anything else →
`TypeError("macro functions must return a sequence of tokens")`. -/
def cmClassify (tokenize : List Nat → List Token) (r : PyVal) :
    Except MacroError (List Token) :=
  if isNone r then Except.ok []
  else if pyUnicodeCheck r then
    match utf8Encode (strCodepoints r) with
    | Option.none => Except.error MacroError.encodingError
    | some bytes => Except.ok (tokenize bytes)
  else if pySequenceCheck r then cmDecodeSeq (pySequenceItems r)
  else Except.error (MacroError.typeMismatch "macro functions must return a sequence of tokens")

/-- csnake result classification (lines 59–101): the result must pass
`PySequence_Check` (note a string passes, and `None` does not) and its
items are decoded; a non-sequence → "macro functions must return a
sequence of tokens". -/
def csClassify (r : PyVal) : Except MacroError (List Token) :=
  if pySequenceCheck r then csDecodeSeq (pySequenceItems r)
  else Except.error (MacroError.typeMismatch "macro functions must return a sequence of tokens")

/-- The state visible to the cmonster variant's `operator()`: the ambient
globals (`PyEval_GetGlobals`, NULL when no frame is executing) and the
engine-owned argument token vector, passed by const reference. -/
structure CmState where
  globals : Option Dict
  args : List Token

/-- The state visible to the csnake variant's `operator()`: just the
engine-owned argument token vector. -/
structure CsState where
  args : List Token

/-- cmonster `FunctionMacro::operator()(expansion_location, arguments)`:
marshal the arguments, publish the invocation context into the globals,
call the callable (a failure propagates with the Python diagnostic), and
classify the result. -/
def cmInvoke (pp : Nat) (tokenize : List Nat → List Token)
    (callable : List PyVal → Except String PyVal)
    (loc : SourcePos) (st : CmState) :
    CmState × Except MacroError (List Token) :=
  let args_tuple := marshalArgs pp st.args
  let st' : CmState := { globals := bindContext pp loc st.globals, args := st.args }
  match callable args_tuple with
  | Except.error diag => (st', Except.error (MacroError.externalCallFailure diag))
  | Except.ok py_result => (st', cmClassify tokenize py_result)

/-- csnake `FunctionMacro::operator()(arguments)`: marshal the arguments,
call the callable (a failure is printed and replaced by the fixed
`std::runtime_error("buhbow")`), and classify the result.  No invocation
context is published. -/
def csInvoke (callable : List PyVal → Except String PyVal)
    (st : CsState) : CsState × Except MacroError (List Token) :=
  let args_tuple := csMarshalArgs st.args
  match callable args_tuple with
  | Except.error _ => (st, Except.error (MacroError.externalCallFailure "buhbow"))
  | Except.ok py_result => (st, csClassify py_result)

/-! Concrete sample values used by witnesses and counterexamples. -/

/-- A sample invocation-site position. -/
def samplePos : SourcePos := { file := "input.c", line := 3, column := 7 }

/-- A second sample position, for the overwrite-on-reinvocation tests. -/
def samplePos2 : SourcePos := { file := "input.c", line := 9, column := 1 }

/-- A sample identifier token. -/
def sampleToken : Token := { kind := 1, text := "foo", pos := samplePos }

/-- A second sample token. -/
def sampleToken2 : Token := { kind := 2, text := "+", pos := samplePos2 }

/-- A sample lexer: one token per input byte (any function works; the
bridge treats the lexer as an external collaborator). -/
def sampleTokenize : List Nat → List Token :=
  fun bytes => bytes.map (fun b => { kind := b, text := "b", pos := samplePos })

/-- A sample cmonster state with an empty globals dictionary and no
arguments. -/
def st0 : CmState := { globals := some [], args := [] }

/-- A sample csnake state with no arguments. -/
def cst0 : CsState := { args := [] }

end CmonsterBridge


namespace CmonsterBridge

/-! ## Helper lemmas -/

/-- Unfolding `cmInvoke` when the external call succeeds. -/
theorem cmInvoke_ok (pp : Nat) (tokenize : List Nat → List Token)
    (f : List PyVal → Except String PyVal) (loc : SourcePos) (st : CmState)
    (r : PyVal) (hf : f (marshalArgs pp st.args) = Except.ok r) :
    cmInvoke pp tokenize f loc st
      = ({ globals := bindContext pp loc st.globals, args := st.args },
         cmClassify tokenize r) := by
  simp [cmInvoke, hf]

/-- Unfolding `cmInvoke` when the external call fails. -/
theorem cmInvoke_err (pp : Nat) (tokenize : List Nat → List Token)
    (f : List PyVal → Except String PyVal) (loc : SourcePos) (st : CmState)
    (diag : String) (hf : f (marshalArgs pp st.args) = Except.error diag) :
    cmInvoke pp tokenize f loc st
      = ({ globals := bindContext pp loc st.globals, args := st.args },
         Except.error (MacroError.externalCallFailure diag)) := by
  simp [cmInvoke, hf]

/-- The post-state of `cmInvoke` is independent of the call's outcome:
the context is published before the call and the arguments are untouched. -/
theorem cmInvoke_state (pp : Nat) (tokenize : List Nat → List Token)
    (f : List PyVal → Except String PyVal) (loc : SourcePos) (st : CmState) :
    (cmInvoke pp tokenize f loc st).1
      = { globals := bindContext pp loc st.globals, args := st.args } := by
  cases hf : f (marshalArgs pp st.args) <;> simp [cmInvoke, hf]

/-- Unfolding `csInvoke` when the external call succeeds. -/
theorem csInvoke_ok (g : List PyVal → Except String PyVal) (cst : CsState)
    (r : PyVal) (hg : g (csMarshalArgs cst.args) = Except.ok r) :
    csInvoke g cst = (cst, csClassify r) := by
  simp [csInvoke, hg]

/-- `csInvoke` never changes the state. -/
theorem csInvoke_state (g : List PyVal → Except String PyVal) (cst : CsState) :
    (csInvoke g cst).1 = cst := by
  cases hg : g (csMarshalArgs cst.args) <;> simp [csInvoke, hg]

/-- The cmonster decoding loop on a list of boxed tokens yields exactly
the wrapped tokens, in order. -/
theorem cmDecodeSeq_all_tokens (elems : List PyVal)
    (h : elems.all isTokenObj = true) :
    cmDecodeSeq elems = Except.ok (elems.map theToken) := by
  induction elems with
  | nil => rfl
  | cons v rest ih =>
    rw [List.all_cons, Bool.and_eq_true] at h
    obtain ⟨h1, h2⟩ := h
    cases v <;> simp [isTokenObj] at h1
    simp [cmDecodeSeq, ih h2, theToken]

/-- The csnake decoding loop on a list of boxed tokens yields exactly
the wrapped tokens, in order. -/
theorem csDecodeSeq_all_tokens (elems : List PyVal)
    (h : elems.all isTokenObj = true) :
    csDecodeSeq elems = Except.ok (elems.map theToken) := by
  induction elems with
  | nil => rfl
  | cons v rest ih =>
    rw [List.all_cons, Bool.and_eq_true] at h
    obtain ⟨h1, h2⟩ := h
    cases v <;> simp [isTokenObj] at h1
    simp [csDecodeSeq, ih h2, theToken]

/-- The cmonster decoding loop on a list with some non-boxed-token
element fails with the `TypeError`, whatever the position. -/
theorem cmDecodeSeq_bad (elems : List PyVal)
    (h : elems.all isTokenObj = false) :
    cmDecodeSeq elems
      = Except.error (MacroError.typeMismatch
          "macro functions must return a sequence of tokens") := by
  induction elems with
  | nil => simp [List.all_nil] at h
  | cons v rest ih =>
    cases v with
    | tokenObj p t =>
      have h2 : rest.all isTokenObj = false := by
        rw [List.all_cons] at h
        simpa [isTokenObj] using h
      simp [cmDecodeSeq, ih h2]
    | none => rfl
    | str cs => rfl
    | int n => rfl
    | seq l => rfl
    | ppObj pp => rfl
    | locObj l => rfl

/-- Unboxing inverts boxing: a boxed argument wraps a copy of the token. -/
theorem theToken_marshal (pp : Nat) (l : List Token) :
    ((marshalArgs pp l).map theToken = l) ∧ ((csMarshalArgs l).map theToken = l) := by
  constructor
  · induction l with
    | nil => rfl
    | cons t ts ih => simpa [marshalArgs, create_token, theToken] using ih
  · induction l with
    | nil => rfl
    | cons t ts ih => simpa [csMarshalArgs, csCreate_token, theToken] using ih

/-- `PyDict_GetItem` after `PyDict_SetItem` at the same key. -/
theorem dictGet_dictSet_self (d : Dict) (k : String) (v : PyVal) :
    dictGet (dictSet d k v) k = some v := by
  induction d with
  | nil => simp [dictSet, dictGet]
  | cons p rest ih =>
    obtain ⟨k', v'⟩ := p
    by_cases h : k' = k
    · simp [dictSet, dictGet, h]
    · simp [dictSet, dictGet, h, ih]

/-- `PyDict_GetItem` after `PyDict_SetItem` at another key. -/
theorem dictGet_dictSet_ne (d : Dict) (k k2 : String) (v : PyVal)
    (hne : k ≠ k2) :
    dictGet (dictSet d k v) k2 = dictGet d k2 := by
  induction d with
  | nil => simp [dictSet, dictGet, hne]
  | cons p rest ih =>
    obtain ⟨k', v'⟩ := p
    by_cases h : k' = k
    · subst h
      simp [dictSet, dictGet, hne]
    · by_cases h2 : k' = k2
      · subst h2
        simp [dictSet, dictGet, h]
      · simp [dictSet, dictGet, h, h2, ih]

/-! ## Claims -/

/-- Claim C1: for every invocation whose external result is an explicit
sequence all of whose elements are boxed tokens, both variants of
`invoke` return exactly the wrapped tokens, one output token per element,
the i-th output token decoded from the i-th element, with no reordering,
deduplication, coalescing, or re-tokenization. -/
theorem c1_explicit_sequence_passthrough
    (pp : Nat) (tokenize : List Nat → List Token)
    (f g : List PyVal → Except String PyVal) (loc : SourcePos)
    (st : CmState) (cst : CsState) (elems : List PyVal)
    (hall : elems.all isTokenObj = true)
    (hf : f (marshalArgs pp st.args) = Except.ok (PyVal.seq elems))
    (hg : g (csMarshalArgs cst.args) = Except.ok (PyVal.seq elems)) :
    (cmInvoke pp tokenize f loc st).2 = Except.ok (elems.map theToken)
    ∧ (csInvoke g cst).2 = Except.ok (elems.map theToken)
    ∧ (elems.map theToken).length = elems.length
    ∧ ∀ i : Nat, (elems.map theToken)[i]? = Option.map theToken elems[i]? := by
  refine ⟨?_, ?_, by simp, fun i => by simp⟩
  · rw [cmInvoke_ok pp tokenize f loc st _ hf]
    simp [cmClassify, isNone, pyUnicodeCheck, pySequenceCheck, pySequenceItems,
      cmDecodeSeq_all_tokens _ hall]
  · rw [csInvoke_ok g cst _ hg]
    simp [csClassify, pySequenceCheck, pySequenceItems,
      csDecodeSeq_all_tokens _ hall]

/-- Claim C1, witness: a callable returning the two-element sequence
`[token(foo), token(+)]` expands to exactly those two tokens in both
variants. -/
theorem c1_witness :
    ([create_token 0 sampleToken, csCreate_token sampleToken2].all isTokenObj
       = true)
    ∧ (cmInvoke 0 sampleTokenize
        (fun _ => Except.ok
          (PyVal.seq [create_token 0 sampleToken, csCreate_token sampleToken2]))
        samplePos st0).2 = Except.ok [sampleToken, sampleToken2]
    ∧ (csInvoke
        (fun _ => Except.ok
          (PyVal.seq [create_token 0 sampleToken, csCreate_token sampleToken2]))
        cst0).2 = Except.ok [sampleToken, sampleToken2] := by
  have h := c1_explicit_sequence_passthrough 0 sampleTokenize
    (fun _ => Except.ok
      (PyVal.seq [create_token 0 sampleToken, csCreate_token sampleToken2]))
    (fun _ => Except.ok
      (PyVal.seq [create_token 0 sampleToken, csCreate_token sampleToken2]))
    samplePos st0 cst0
    [create_token 0 sampleToken, csCreate_token sampleToken2] rfl rfl rfl
  exact ⟨rfl, h.1, h.2.1⟩

/-- Claim C2 (the claim is the spec's intent; the csnake variant's string
element path is an unimplemented "TODO" placeholder): the cmonster
variant rejects a result sequence containing a non-token element with a
`TypeError` and zero output tokens, and the csnake variant does so for an
integer element, but a string element in the csnake variant is replaced
by the placeholder token `T_STRINGLIT("TODO")` and the invocation
succeeds, contradicting the claim. -/
theorem c2_nontoken_element_behavior :
    (cmInvoke 0 sampleTokenize
        (fun _ => Except.ok
          (PyVal.seq [create_token 0 sampleToken, PyVal.str [97]]))
        samplePos st0).2
      = Except.error (MacroError.typeMismatch
          "macro functions must return a sequence of tokens")
    ∧ (csInvoke
        (fun _ => Except.ok
          (PyVal.seq [csCreate_token sampleToken, PyVal.str [97]]))
        cst0).2
      = Except.ok [sampleToken, todoToken]
    ∧ (csInvoke
        (fun _ => Except.ok
          (PyVal.seq [csCreate_token sampleToken, PyVal.int 42]))
        cst0).2
      = Except.error (MacroError.typeMismatch "Invalid return value")
    ∧ (Except.ok [sampleToken, todoToken] : Except MacroError (List Token))
        ≠ Except.error (MacroError.typeMismatch
            "macro functions must return a sequence of tokens") :=
  ⟨rfl, rfl, rfl, by decide⟩

/-- Claim C3, counterexample: in the csnake variant a callable returning
`None` does not yield an empty token list — `None` fails
`PySequence_Check` and the invocation fails. -/
theorem c3_counterexample :
    (csInvoke (fun _ => Except.ok PyVal.none) cst0).2
      = Except.error (MacroError.typeMismatch
          "macro functions must return a sequence of tokens")
    ∧ (csInvoke (fun _ => Except.ok PyVal.none) cst0).2
        ≠ Except.ok [] :=
  ⟨rfl, by decide⟩

/-- Claim C3 as amended: for every argument list, a callable returning
`None` yields an empty token list in the cmonster variant, while in the
csnake variant it fails with a type-mismatch error. -/
theorem c3_none_result_amended
    (pp : Nat) (tokenize : List Nat → List Token)
    (f g : List PyVal → Except String PyVal) (loc : SourcePos)
    (st : CmState) (cst : CsState)
    (hf : f (marshalArgs pp st.args) = Except.ok PyVal.none)
    (hg : g (csMarshalArgs cst.args) = Except.ok PyVal.none) :
    (cmInvoke pp tokenize f loc st).2 = Except.ok []
    ∧ (csInvoke g cst).2
      = Except.error (MacroError.typeMismatch
          "macro functions must return a sequence of tokens") := by
  constructor
  · rw [cmInvoke_ok pp tokenize f loc st _ hf]
    rfl
  · rw [csInvoke_ok g cst _ hg]
    rfl

/-- Claim C3, witness: a callable returning `None` with an empty argument
list, on both variants. -/
theorem c3_witness :
    (cmInvoke 0 sampleTokenize (fun _ => Except.ok PyVal.none)
        samplePos st0).2 = Except.ok []
    ∧ (csInvoke (fun _ => Except.ok PyVal.none) cst0).2
      = Except.error (MacroError.typeMismatch
          "macro functions must return a sequence of tokens") :=
  c3_none_result_amended 0 sampleTokenize
    (fun _ => Except.ok PyVal.none) (fun _ => Except.ok PyVal.none)
    samplePos st0 cst0 rfl rfl

/-- Claim C4: in the cmonster variant, a text-typed result is encoded as
UTF-8 — failing with the encoding error and producing no tokens when some
code point is not UTF-8-representable — and otherwise the invocation
returns exactly what the preprocessor lexer yields on the encoded bytes,
with no further transformation (for every lexer `tokenize`). -/
theorem c4_text_result_utf8_retokenize
    (pp : Nat) (tokenize : List Nat → List Token)
    (f : List PyVal → Except String PyVal) (loc : SourcePos)
    (st : CmState) (cs : List Nat)
    (hf : f (marshalArgs pp st.args) = Except.ok (PyVal.str cs)) :
    (cs.all validScalar = true →
      (cmInvoke pp tokenize f loc st).2
        = Except.ok (tokenize (cs.map utf8EncodeChar).flatten))
    ∧ (cs.all validScalar = false →
      (cmInvoke pp tokenize f loc st).2
        = Except.error MacroError.encodingError) := by
  constructor <;> intro h <;> rw [cmInvoke_ok pp tokenize f loc st _ hf] <;>
    simp [cmClassify, isNone, pyUnicodeCheck, strCodepoints, utf8Encode, h]

/-- Claim C4, witness: the text "1+" (all ASCII) is retokenized via the
sample lexer, and the one-code-point text consisting of the lone
surrogate 0xD800 fails with the encoding error. -/
theorem c4_witness :
    (([49, 43] : List Nat).all validScalar = true)
    ∧ (cmInvoke 0 sampleTokenize
        (fun _ => Except.ok (PyVal.str [49, 43])) samplePos st0).2
      = Except.ok (sampleTokenize (([49, 43] : List Nat).map utf8EncodeChar).flatten)
    ∧ (([55296] : List Nat).all validScalar = false)
    ∧ (cmInvoke 0 sampleTokenize
        (fun _ => Except.ok (PyVal.str [55296])) samplePos st0).2
      = Except.error MacroError.encodingError := by
  refine ⟨by decide, ?_, by decide, ?_⟩
  · exact (c4_text_result_utf8_retokenize 0 sampleTokenize
      (fun _ => Except.ok (PyVal.str [49, 43])) samplePos st0 [49, 43]
      rfl).1 (by decide)
  · exact (c4_text_result_utf8_retokenize 0 sampleTokenize
      (fun _ => Except.ok (PyVal.str [55296])) samplePos st0 [55296]
      rfl).2 (by decide)

/-- Claim C5, counterexample: (i) in the csnake variant a text result is
treated as a sequence (its characters each become the placeholder token)
rather than being re-tokenized, and a `None` result is an error rather
than the empty expansion; (ii) in the cmonster variant the catch-all
type-mismatch message is "macro functions must return a sequence of
tokens", not the claimed "... nothing, text, or a sequence of tokens". -/
theorem c5_counterexample :
    (csInvoke (fun _ => Except.ok (PyVal.str [97, 98])) cst0).2
      = Except.ok [todoToken, todoToken]
    ∧ (csInvoke (fun _ => Except.ok PyVal.none) cst0).2
      = Except.error (MacroError.typeMismatch
          "macro functions must return a sequence of tokens")
    ∧ (cmInvoke 0 sampleTokenize (fun _ => Except.ok (PyVal.int 42))
        samplePos st0).2
      = Except.error (MacroError.typeMismatch
          "macro functions must return a sequence of tokens")
    ∧ "macro functions must return a sequence of tokens"
        ≠ "macro functions must return nothing, text, or a sequence of tokens" :=
  ⟨rfl, rfl, rfl, by decide⟩

/-- Claim C5 as amended: in the cmonster variant result classification
takes exactly one branch, tested in priority order `None` first, then
text (a text result is re-tokenized, never element-decoded as a
sequence), then sequence, and any result matching none of these shapes
fails with a type mismatch stating that macro functions must return a
sequence of tokens; the csnake variant tests only sequence-ness: `None`
and every other non-sequence fail with that type mismatch, and a text
result — being sequence-like — is decoded as the sequence of its
one-character strings rather than re-tokenized. -/
theorem c5_classification_amended
    (pp : Nat) (tokenize : List Nat → List Token)
    (f g : List PyVal → Except String PyVal) (loc : SourcePos)
    (st : CmState) (cst : CsState) :
    (f (marshalArgs pp st.args) = Except.ok PyVal.none →
      (cmInvoke pp tokenize f loc st).2 = Except.ok [])
    ∧ (∀ cs, f (marshalArgs pp st.args) = Except.ok (PyVal.str cs) →
      (cmInvoke pp tokenize f loc st).2
        = match utf8Encode cs with
          | Option.none => Except.error MacroError.encodingError
          | some bytes => Except.ok (tokenize bytes))
    ∧ (∀ elems, f (marshalArgs pp st.args) = Except.ok (PyVal.seq elems) →
      (cmInvoke pp tokenize f loc st).2 = cmDecodeSeq elems)
    ∧ (∀ r, f (marshalArgs pp st.args) = Except.ok r →
      isNone r = false → pyUnicodeCheck r = false → pySequenceCheck r = false →
      (cmInvoke pp tokenize f loc st).2
        = Except.error (MacroError.typeMismatch
            "macro functions must return a sequence of tokens"))
    ∧ (∀ r, g (csMarshalArgs cst.args) = Except.ok r →
      pySequenceCheck r = false →
      (csInvoke g cst).2
        = Except.error (MacroError.typeMismatch
            "macro functions must return a sequence of tokens"))
    ∧ (∀ cs, g (csMarshalArgs cst.args) = Except.ok (PyVal.str cs) →
      (csInvoke g cst).2 = csDecodeSeq (cs.map (fun c => PyVal.str [c])))
    ∧ (∀ elems, g (csMarshalArgs cst.args) = Except.ok (PyVal.seq elems) →
      (csInvoke g cst).2 = csDecodeSeq elems) := by
  refine ⟨?_, ?_, ?_, ?_, ?_, ?_, ?_⟩
  · intro hf
    rw [cmInvoke_ok pp tokenize f loc st _ hf]
    rfl
  · intro cs hf
    rw [cmInvoke_ok pp tokenize f loc st _ hf]
    simp [cmClassify, isNone, pyUnicodeCheck, strCodepoints]
  · intro elems hf
    rw [cmInvoke_ok pp tokenize f loc st _ hf]
    rfl
  · intro r hf h1 h2 h3
    rw [cmInvoke_ok pp tokenize f loc st _ hf]
    simp [cmClassify, h1, h2, h3]
  · intro r hg h1
    rw [csInvoke_ok g cst _ hg]
    simp [csClassify, h1]
  · intro cs hg
    rw [csInvoke_ok g cst _ hg]
    rfl
  · intro elems hg
    rw [csInvoke_ok g cst _ hg]
    rfl

/-- Claim C5, witness: the `None` branch of the cmonster variant and the
non-sequence rejection of the csnake variant, at concrete inputs. -/
theorem c5_witness :
    (cmInvoke 0 sampleTokenize (fun _ => Except.ok PyVal.none)
        samplePos st0).2 = Except.ok []
    ∧ (csInvoke (fun _ => Except.ok (PyVal.int 7)) cst0).2
      = Except.error (MacroError.typeMismatch
          "macro functions must return a sequence of tokens") := by
  have h := c5_classification_amended 0 sampleTokenize
    (fun _ => Except.ok PyVal.none) (fun _ => Except.ok (PyVal.int 7))
    samplePos st0 cst0
  exact ⟨h.1 rfl, h.2.2.2.2.1 (PyVal.int 7) rfl rfl⟩

/-- Claim C6: argument marshaling in both variants produces an encoded
list of the same length whose i-th element is the boxed copy of the i-th
input token (kind, text and position preserved, as witnessed by unboxing
returning the identical token); the invoker performs no arity validation
— it consults the callable only at the marshaled argument list, whatever
its length. -/
theorem c6_argument_marshaling
    (pp : Nat) (tokenize : List Nat → List Token)
    (f f2 g g2 : List PyVal → Except String PyVal) (loc : SourcePos)
    (st : CmState) (cst : CsState) (args : List Token)
    (hfe : f (marshalArgs pp st.args) = f2 (marshalArgs pp st.args))
    (hge : g (csMarshalArgs cst.args) = g2 (csMarshalArgs cst.args)) :
    (marshalArgs pp args).length = args.length
    ∧ (∀ i : Nat, (marshalArgs pp args)[i]?
        = Option.map (create_token pp) args[i]?)
    ∧ (csMarshalArgs args).length = args.length
    ∧ (∀ i : Nat, (csMarshalArgs args)[i]? = Option.map csCreate_token args[i]?)
    ∧ (∀ t : Token, theToken (create_token pp t) = t
        ∧ theToken (csCreate_token t) = t)
    ∧ cmInvoke pp tokenize f loc st = cmInvoke pp tokenize f2 loc st
    ∧ csInvoke g cst = csInvoke g2 cst := by
  refine ⟨by simp [marshalArgs], fun i => by simp [marshalArgs],
    by simp [csMarshalArgs], fun i => by simp [csMarshalArgs],
    fun t => ⟨rfl, rfl⟩, ?_, ?_⟩
  · simp [cmInvoke, hfe]
  · simp [csInvoke, hge]

/-- Claim C6, witness: marshaling the two-token argument list
`[foo, +]`, with a pair of callables that agree on it. -/
theorem c6_witness :
    (marshalArgs 0 [sampleToken, sampleToken2]).length = 2
    ∧ (marshalArgs 0 [sampleToken, sampleToken2])[0]?
      = some (create_token 0 sampleToken)
    ∧ (marshalArgs 0 [sampleToken, sampleToken2])[1]?
      = some (create_token 0 sampleToken2)
    ∧ theToken (create_token 0 sampleToken) = sampleToken := by
  have h := c6_argument_marshaling 0 sampleTokenize
    (fun _ => Except.ok PyVal.none) (fun _ => Except.ok PyVal.none)
    (fun _ => Except.ok PyVal.none) (fun _ => Except.ok PyVal.none)
    samplePos st0 cst0 [sampleToken, sampleToken2] rfl rfl
  exact ⟨h.1, h.2.1 0, h.2.1 1, (h.2.2.2.2.1 sampleToken).1⟩

/-- Claim C7, counterexample: (i) in the cmonster variant, when
`PyEval_GetGlobals` yields no dictionary the whole invocation runs
without publishing any `preprocessor`/`location` binding; (ii) the csnake
variant never publishes an invocation context — its whole state passes
through an invocation unchanged. -/
theorem c7_counterexample :
    (cmInvoke 0 sampleTokenize (fun _ => Except.ok PyVal.none) samplePos
        { globals := Option.none, args := [] }).1.globals = Option.none
    ∧ (csInvoke (fun _ => Except.ok (PyVal.seq [])) cst0).1 = cst0 :=
  ⟨rfl, rfl⟩

/-- Claim C7 as amended: in the cmonster variant, whenever the
process-wide globals dictionary is available, the invoker publishes —
before the external call, hence whatever the call's outcome — the
`preprocessor` and `location` slots with the current preprocessor and the
invocation's expansion location, and a subsequent invocation overwrites
(replaces, not merges) them, so after each invocation the ambient
`location` binding matches that invocation's source location; when no
globals dictionary is available, nothing is published (and the csnake
variant publishes nothing ever). -/
theorem c7_context_binding_amended
    (pp : Nat) (tokenize : List Nat → List Token)
    (f f2 : List PyVal → Except String PyVal)
    (loc loc2 : SourcePos) (st : CmState) (d : Dict)
    (h : st.globals = some d) :
    ∃ d1, (cmInvoke pp tokenize f loc st).1.globals = some d1
      ∧ dictGet d1 "preprocessor" = some (PyVal.ppObj pp)
      ∧ dictGet d1 "location" = some (PyVal.locObj loc)
      ∧ ∃ d2, (cmInvoke pp tokenize f2 loc2
            (cmInvoke pp tokenize f loc st).1).1.globals = some d2
        ∧ dictGet d2 "preprocessor" = some (PyVal.ppObj pp)
        ∧ dictGet d2 "location" = some (PyVal.locObj loc2) := by
  have hbind : ∀ (dd : Dict) (l : SourcePos),
      dictGet (dictSet (dictSet dd "preprocessor" (PyVal.ppObj pp))
          "location" (PyVal.locObj l)) "preprocessor" = some (PyVal.ppObj pp)
      ∧ dictGet (dictSet (dictSet dd "preprocessor" (PyVal.ppObj pp))
          "location" (PyVal.locObj l)) "location" = some (PyVal.locObj l) := by
    intro dd l
    constructor
    · rw [dictGet_dictSet_ne _ _ _ _ (by decide)]
      exact dictGet_dictSet_self _ _ _
    · exact dictGet_dictSet_self _ _ _
  rw [cmInvoke_state pp tokenize f loc st, h]
  refine ⟨_, rfl, (hbind d loc).1, (hbind d loc).2, ?_⟩
  rw [cmInvoke_state pp tokenize f2 loc2 _]
  exact ⟨_, rfl, (hbind _ loc2).1, (hbind _ loc2).2⟩

/-- Claim C7, witness: two successive invocations from an initially empty
globals dictionary, at two distinct expansion locations. -/
theorem c7_witness :
    ∃ d1, (cmInvoke 0 sampleTokenize (fun _ => Except.ok PyVal.none)
            samplePos st0).1.globals = some d1
      ∧ dictGet d1 "preprocessor" = some (PyVal.ppObj 0)
      ∧ dictGet d1 "location" = some (PyVal.locObj samplePos)
      ∧ ∃ d2, (cmInvoke 0 sampleTokenize (fun _ => Except.ok PyVal.none)
            samplePos2
            (cmInvoke 0 sampleTokenize (fun _ => Except.ok PyVal.none)
              samplePos st0).1).1.globals = some d2
        ∧ dictGet d2 "preprocessor" = some (PyVal.ppObj 0)
        ∧ dictGet d2 "location" = some (PyVal.locObj samplePos2) :=
  c7_context_binding_amended 0 sampleTokenize
    (fun _ => Except.ok PyVal.none) (fun _ => Except.ok PyVal.none)
    samplePos samplePos2 st0 [] rfl

/-- Claim C8 (the claim is the spec's intent; the csnake variant's call
failure path is marked "TODO raise proper exception"): when the callable
raises, both variants abort immediately with a call failure and no
tokens, but only the cmonster variant's failure carries the external
environment's diagnostic — the csnake variant prints it and throws the
fixed "buhbow" error instead. -/
theorem c8_call_failure_propagation :
    (cmInvoke 0 sampleTokenize (fun _ => Except.error "division by zero")
        samplePos st0).2
      = Except.error (MacroError.externalCallFailure "division by zero")
    ∧ (csInvoke (fun _ => Except.error "division by zero") cst0).2
      = Except.error (MacroError.externalCallFailure "buhbow")
    ∧ ("buhbow" : String) ≠ "division by zero" :=
  ⟨rfl, rfl, by decide⟩

/-- Claim C9: an invocation of either variant leaves the engine-owned
argument token vector unchanged whether it succeeds or fails, because
each token is copied into a freshly created boxed handle (unboxing the
marshaled list returns the original tokens, kinds, texts and positions
included). -/
theorem c9_arguments_untouched
    (pp : Nat) (tokenize : List Nat → List Token)
    (f g : List PyVal → Except String PyVal) (loc : SourcePos)
    (st : CmState) (cst : CsState) :
    (cmInvoke pp tokenize f loc st).1.args = st.args
    ∧ (csInvoke g cst).1 = cst
    ∧ (marshalArgs pp st.args).map theToken = st.args
    ∧ (csMarshalArgs cst.args).map theToken = cst.args := by
  refine ⟨?_, csInvoke_state g cst,
    (theToken_marshal pp st.args).1, (theToken_marshal pp cst.args).2⟩
  rw [cmInvoke_state pp tokenize f loc st]

/-- Claim C10: on a result sequence all of whose elements are boxed
tokens, the result-decoding loops of the two variants are equivalent:
with corresponding tokens identified, both produce the wrapped tokens
extracted elementwise in increasing index order. -/
theorem c10_decode_equivalence (elems : List PyVal)
    (h : elems.all isTokenObj = true) :
    cmDecodeSeq elems = Except.ok (elems.map theToken)
    ∧ csDecodeSeq elems = Except.ok (elems.map theToken)
    ∧ cmDecodeSeq elems = csDecodeSeq elems := by
  refine ⟨cmDecodeSeq_all_tokens elems h, csDecodeSeq_all_tokens elems h, ?_⟩
  rw [cmDecodeSeq_all_tokens elems h, csDecodeSeq_all_tokens elems h]

/-- Claim C10, witness: both decoding loops on the concrete two-element
boxed-token sequence `[foo, +]`. -/
theorem c10_witness :
    ([create_token 0 sampleToken, csCreate_token sampleToken2].all isTokenObj
       = true)
    ∧ cmDecodeSeq [create_token 0 sampleToken, csCreate_token sampleToken2]
      = Except.ok [sampleToken, sampleToken2]
    ∧ csDecodeSeq [create_token 0 sampleToken, csCreate_token sampleToken2]
      = Except.ok [sampleToken, sampleToken2] := by
  have h := c10_decode_equivalence
    [create_token 0 sampleToken, csCreate_token sampleToken2] rfl
  exact ⟨rfl, h.1, h.2.1⟩

end CmonsterBridge
